import Mathlib

/-!
# Adaptive Control System Visualizer: request orchestration and connection state

A shallow embedding of `src/static/app.js`.

* JavaScript strings are lists of characters (`Str`).
* JavaScript numbers produced by `parseFloat` / `parseInt` are kept as the exact
  decimal value that was read (`JSNum`); the rounding to an IEEE double is not
  part of the model, only the distinction between `NaN` and a number and the
  exact value of the literal.
* The page is an explicit state (`App`); every `async` function is split at its
  `await fetch(...)` into the part that runs up to the request and the part
  that runs when the request settles.
* `setTimeout` / `clearTimeout` are an explicit timer table with a logical clock
  in milliseconds.
-/

namespace ACSV

/-! ## Strings -/

abbrev Str := List Char

/-- ECMAScript `WhiteSpace` and `LineTerminator` code points, the characters removed by
`String.prototype.trim` and skipped by `parseFloat` / `parseInt`. -/
def isJsWhiteSpace (c : Char) : Bool :=
  let n := c.toNat
  n == 0x09 || n == 0x0A || n == 0x0B || n == 0x0C || n == 0x0D || n == 0x20 ||
  n == 0xA0 || n == 0x1680 || (0x2000 ≤ n && n ≤ 0x200A) || n == 0x2028 ||
  n == 0x2029 || n == 0x202F || n == 0x205F || n == 0x3000 || n == 0xFEFF

/-- The leading-whitespace removal done by `trim`, `parseFloat` and `parseInt`. -/
def trimStart (s : Str) : Str := s.dropWhile isJsWhiteSpace

/-- `String.prototype.trim`. -/
def trim (s : Str) : Str := ((trimStart s).reverse.dropWhile isJsWhiteSpace).reverse

/-- `text.split(',')`: the pieces between commas; the empty text gives one empty piece. -/
def splitComma : Str → List Str
  | [] => [[]]
  | c :: cs =>
    if c = ',' then [] :: splitComma cs
    else
      match splitComma cs with
      | [] => [[c]]
      | piece :: rest => (c :: piece) :: rest

/-- JavaScript truthiness of a string: non-empty. -/
def truthy (s : Str) : Bool := !s.isEmpty

/-- JavaScript `a && b` on strings: the left operand when it is falsy, else the right. -/
def jsAnd (a b : Str) : Str := if truthy a then b else a

/-- `String.prototype.replace(pattern, replacement)` with a one-character string pattern:
only the first occurrence is replaced. -/
def replaceFirst (p r : Char) : Str → Str
  | [] => []
  | c :: cs => if c = p then r :: cs else c :: replaceFirst p r cs

/-- The upper-case form of an ASCII lower-case letter; any other character is itself. -/
def upperChar (c : Char) : Char :=
  if 'a'.toNat ≤ c.toNat ∧ c.toNat ≤ 'z'.toNat then Char.ofNat (c.toNat - 32) else c

/-- `String.prototype.toUpperCase` on the ASCII letters (the sweep parameter names are ASCII
identifiers); other characters are left as they are. -/
def toUpperCase (s : Str) : Str := s.map upperChar

/-! ## Numbers -/

/-- A JavaScript number as read from text: `NaN`, an infinity, or the exact decimal
`(-1)^neg * mant * 10^exp10`. -/
inductive JSNum where
  | nan
  | inf (neg : Bool)
  | fin (neg : Bool) (mant : Nat) (exp10 : Int)
  deriving DecidableEq, Repr

/-- The global `isNaN` on a number. -/
def JSNum.isNaN : JSNum → Bool
  | .nan => true
  | _ => false

/-- The number written by a natural-number literal. -/
def JSNum.ofNat (n : Nat) : JSNum := .fin false n 0

/-- The exact rational value of a finite number. -/
def JSNum.toRat? : JSNum → Option ℚ
  | .fin neg m e => some ((if neg then -1 else 1) * (m : ℚ) * (10 : ℚ) ^ e)
  | _ => none

def isDecimalDigit (c : Char) : Bool := '0'.toNat ≤ c.toNat && c.toNat ≤ '9'.toNat

/-- The value of a hexadecimal digit, if the character is one. -/
def hexDigitValue? (c : Char) : Option Nat :=
  if isDecimalDigit c then some (c.toNat - '0'.toNat)
  else if 'a'.toNat ≤ c.toNat && c.toNat ≤ 'f'.toNat then some (c.toNat - 'a'.toNat + 10)
  else if 'A'.toNat ≤ c.toNat && c.toNat ≤ 'F'.toNat then some (c.toNat - 'A'.toNat + 10)
  else none

/-- The longest prefix of characters satisfying `p` and the rest. -/
def spanChars (p : Char → Bool) : Str → Str × Str
  | [] => ([], [])
  | c :: cs =>
    if p c then ((c :: (spanChars p cs).1), (spanChars p cs).2)
    else ([], c :: cs)

/-- The value of a run of digits in the given radix (left to right). -/
def digitsValue (radix : Nat) (ds : Str) : Nat :=
  ds.foldl (fun acc c => acc * radix + (hexDigitValue? c).getD 0) 0

/-- An optional leading sign: whether it is `-`, and the rest. -/
def takeSign : Str → Bool × Str
  | '-' :: r => (true, r)
  | '+' :: r => (false, r)
  | s => (false, s)

/-- The `ExponentPart` of a `StrDecimalLiteral` at the head of `s`, if there is a
complete one (`e` or `E`, an optional sign, at least one digit); otherwise exponent `0`. -/
def exponentPart (s : Str) : Int :=
  match s with
  | c :: r =>
    if c = 'e' ∨ c = 'E' then
      let sr := takeSign r
      let ds := (spanChars isDecimalDigit sr.2).1
      if ds.isEmpty then 0
      else if sr.1 then -(digitsValue 10 ds : Int) else (digitsValue 10 ds : Int)
    else 0
  | [] => 0

/-- The global `parseFloat` (ECMAScript 19.2.4): leading whitespace is skipped and the
longest prefix that is a `StrDecimalLiteral` is read; `NaN` when there is none. -/
def parseFloat (s : Str) : JSNum :=
  let sr := takeSign (trimStart s)
  let neg := sr.1
  let r := sr.2
  if "Infinity".toList.isPrefixOf r then .inf neg
  else
    let ip := spanChars isDecimalDigit r
    let fp : Str × Str :=
      match ip.2 with
      | '.' :: r1 => spanChars isDecimalDigit r1
      | r1 => ([], r1)
    if ip.1.isEmpty && fp.1.isEmpty then .nan
    else .fin neg (digitsValue 10 (ip.1 ++ fp.1)) (exponentPart fp.2 - (fp.1.length : Int))

/-- The global `parseInt` with no radix argument (ECMAScript 19.2.5): leading whitespace
is skipped, an optional sign is read, a `0x` / `0X` prefix selects radix 16, and the
longest run of digits is read; `NaN` when that run is empty. -/
def parseInt (s : Str) : JSNum :=
  let sr := takeSign (trimStart s)
  match sr.2 with
  | '0' :: x :: r =>
    if x = 'x' ∨ x = 'X' then
      let ds := (spanChars (fun c => (hexDigitValue? c).isSome) r).1
      if ds.isEmpty then .nan else .fin sr.1 (digitsValue 16 ds) 0
    else
      .fin sr.1 (digitsValue 10 (spanChars isDecimalDigit ('0' :: x :: r)).1) 0
  | r =>
    let ds := (spanChars isDecimalDigit r).1
    if ds.isEmpty then .nan else .fin sr.1 (digitsValue 10 ds) 0

/-! ## The form (DOM input values) -/

/-- The `input`, `textarea` and `select` elements of the page that the script reads. -/
inductive InputId where
  | apiUrl | apiKey | apiHost
  | currentH | beta0 | lambdaFactor | epsilon | baseOutput | alphaParam | gammaParam
  | previousH | systemId | outputLabels
  | parameterSelect | startValue | endValue | steps
  deriving DecidableEq, Repr

/-- The `.value` of every input element. -/
structure Dom where
  apiUrl : Str
  apiKey : Str
  apiHost : Str
  currentH : Str
  beta0 : Str
  lambdaFactor : Str
  epsilon : Str
  baseOutput : Str
  alphaParam : Str
  gammaParam : Str
  previousH : Str
  systemId : Str
  outputLabels : Str
  parameterSelect : Str
  startValue : Str
  endValue : Str
  steps : Str
  deriving DecidableEq, Repr

/-- The user typing into (or otherwise changing) one element: its `.value` changes. -/
def Dom.set (d : Dom) (i : InputId) (v : Str) : Dom :=
  match i with
  | .apiUrl => { d with apiUrl := v }
  | .apiKey => { d with apiKey := v }
  | .apiHost => { d with apiHost := v }
  | .currentH => { d with currentH := v }
  | .beta0 => { d with beta0 := v }
  | .lambdaFactor => { d with lambdaFactor := v }
  | .epsilon => { d with epsilon := v }
  | .baseOutput => { d with baseOutput := v }
  | .alphaParam => { d with alphaParam := v }
  | .gammaParam => { d with gammaParam := v }
  | .previousH => { d with previousH := v }
  | .systemId => { d with systemId := v }
  | .outputLabels => { d with outputLabels := v }
  | .parameterSelect => { d with parameterSelect := v }
  | .startValue => { d with startValue := v }
  | .endValue => { d with endValue := v }
  | .steps => { d with steps := v }

/-! ## Request payloads -/

/-- The object built by `getFormData`; an absent key is `none`. -/
structure CalculationRequest where
  current_h : JSNum
  beta_0 : JSNum
  lambda_factor : JSNum
  epsilon : JSNum
  base_output : List JSNum
  alpha_param : JSNum
  gamma_param : JSNum
  previous_h : Option JSNum
  system_id : Option Str
  output_labels : Option (List Str)
  deriving DecidableEq, Repr

/-- The `baseOutput` constant of `getFormData`. -/
def baseOutputOf (baseOutputText : Str) : List JSNum :=
  ((splitComma baseOutputText).map (fun val => parseFloat (trim val))).filter
    (fun val => !val.isNaN)

/-- The `outputLabels` constant of `getFormData`; `none` is JavaScript `null`. -/
def outputLabelsOf (outputLabelsText : Str) : Option (List Str) :=
  if truthy (trim outputLabelsText) then
    some ((splitComma outputLabelsText).map (fun val => trim val))
  else none

/-- The function `getFormData`. -/
def getFormData (d : Dom) : CalculationRequest :=
  let baseOutput := baseOutputOf d.baseOutput
  let outputLabels := outputLabelsOf d.outputLabels
  { current_h := parseFloat d.currentH
    beta_0 := parseFloat d.beta0
    lambda_factor := parseFloat d.lambdaFactor
    epsilon := parseFloat d.epsilon
    base_output := baseOutput
    alpha_param := parseFloat d.alphaParam
    gamma_param := parseFloat d.gammaParam
    previous_h := if truthy d.previousH then some (parseFloat d.previousH) else none
    system_id := if truthy d.systemId then some d.systemId else none
    output_labels :=
      match outputLabels with
      | some labels => if labels.length = baseOutput.length then some labels else none
      | none => none }

/-- The `graphRequest` object of `generateGraph`. -/
structure GraphRequest where
  parameter_name : Str
  start_value : JSNum
  end_value : JSNum
  steps : JSNum
  base_request : CalculationRequest
  deriving DecidableEq, Repr

/-- The `testPayload` object of `verifyRapidApiConnection`. -/
def testPayload : CalculationRequest :=
  { current_h := .fin false 10 (-1)
    beta_0 := .fin false 10 (-1)
    lambda_factor := .fin false 10 (-1)
    epsilon := .fin false 1 (-10)
    base_output := [.fin false 10 (-1)]
    alpha_param := .fin false 10 (-1)
    gamma_param := .fin false 10 (-1)
    previous_h := none
    system_id := none
    output_labels := none }

/-- The function `getApiHeaders`: the header object as an ordered list of entries. -/
def getApiHeaders (d : Dom) : List (Str × Str) :=
  let baseUrl := trim d.apiUrl
  let apiKey := trim d.apiKey
  let apiHost := trim d.apiHost
  let headers := [("Content-Type".toList, "application/json".toList)]
  if truthy (jsAnd (jsAnd baseUrl apiKey) apiHost) then
    headers ++ [("X-RapidAPI-Base-Url".toList, baseUrl), ("X-RapidAPI-Key".toList, apiKey),
      ("X-RapidAPI-Host".toList, apiHost)]
  else headers

/-! ## Responses -/

/-- The fields of a calculation result that the script reads. -/
structure CalculationResult where
  h_value : JSNum
  delta_h : JSNum
  processing_factor : JSNum
  control_parameter : JSNum
  output_gain : JSNum
  deriving DecidableEq, Repr

/-- The body of a successful `/api/graph` response. -/
structure SweepResult where
  parameter_values : List JSNum
  results : List CalculationResult
  parameter_name : Str
  deriving DecidableEq, Repr

/-- The JSON object of an error response: its `detail` field, when present, is a string. -/
structure ErrorObject where
  detail : Option Str
  deriving DecidableEq, Repr

/-- What `await response.json()` does: it throws (the body is not JSON; `message` is the
exception's message) or yields the parsed value. -/
inductive JsonBody (α : Type) where
  | invalid (message : Str)
  | parsed (value : α)
  deriving DecidableEq, Repr

/-- How an `await fetch(...)` settles, for a service that follows its contract: the fetch
rejects (`networkError`), or a response arrives with `response.ok` true (status 200 to
299) and a result body, or with `response.ok` false, a status text and an error body. -/
inductive FetchOutcome (α : Type) where
  | networkError (message : Str)
  | ok (body : JsonBody α)
  | notOk (status : Nat) (statusText : Str) (body : JsonBody ErrorObject)
  deriving DecidableEq, Repr

/-- The function `safeJson`: an unparsable body reads as the empty object. -/
def safeJson (body : JsonBody ErrorObject) : ErrorObject :=
  match body with
  | .invalid _ => { detail := none }
  | .parsed e => e

/-- JavaScript `error.detail || alternative`: the detail when it is present and truthy. -/
def detailOr (e : ErrorObject) (alternative : Str) : Str :=
  match e.detail with
  | some d => if truthy d then d else alternative
  | none => alternative

/-! ## The chart -/

/-- The parts of the Chart.js object that the script writes: `chart.data.labels`, the
`data` arrays of the three datasets, `options.plugins.title.text` and
`options.scales.x.title.text`. -/
structure Chart where
  labels : List JSNum
  data0 : List JSNum
  data1 : List JSNum
  data2 : List JSNum
  title : Str
  xAxisLabel : Str
  deriving DecidableEq, Repr

/-- The chart built by `initializeChart`. -/
def initializeChart : Chart :=
  { labels := [], data0 := [], data1 := [], data2 := []
    title := "Adaptive Control System Response".toList
    xAxisLabel := "Parameter Value".toList }

/-- The function `updateSinglePointChart`. -/
def updateSinglePointChart (chart : Chart) (result : CalculationResult) : Chart :=
  let paramValue := result.h_value
  { chart with
    labels := [paramValue]
    data0 := [result.output_gain]
    data1 := [result.control_parameter]
    data2 := [result.processing_factor]
    title := "Single Point Calculation Result".toList }

/-- The function `updateChart`. -/
def updateChart (chart : Chart) (data : SweepResult) : Chart :=
  { chart with
    labels := data.parameter_values
    data0 := data.results.map (fun r => r.output_gain)
    data1 := data.results.map (fun r => r.control_parameter)
    data2 := data.results.map (fun r => r.processing_factor)
    title := "Parameter Sweep: ".toList ++ data.parameter_name
    xAxisLabel := toUpperCase (replaceFirst '_' ' ' data.parameter_name) }

/-! ## The page state -/

inductive MessageType where
  | error | success
  deriving DecidableEq, Repr

/-- One call of `showMessage`. -/
structure Message where
  text : Str
  type : MessageType
  deriving DecidableEq, Repr

/-- Which function issued a `fetch`. -/
inductive Origin where
  | verify | calculate | preview | graph
  deriving DecidableEq, Repr

inductive RequestBody where
  | calculation (data : CalculationRequest)
  | sweep (graphRequest : GraphRequest)
  deriving DecidableEq, Repr

/-- One call of `fetch`: all of them are `POST`. -/
structure NetRequest where
  origin : Origin
  url : Str
  headers : List (Str × Str)
  body : RequestBody
  deriving DecidableEq, Repr

/-- The three texts that `updateApiStatus` can put in the status element. -/
inductive ApiStatus where
  | notConnected | connected | verifying
  deriving DecidableEq, Repr

/-- A pending `setTimeout(later, wait)` made by the debounced handler of input `owner`. -/
structure Timer where
  id : Nat
  due : Nat
  owner : InputId
  deriving DecidableEq, Repr

/-- The state of the page.

`messageLog`, `requests`, `consoleErrors` and `previewCalls` record, in order, the calls of
`showMessage`, `fetch`, `console.error` and (with the time and the form values at the
call) `updatePreview`. `timeoutVar i` is the `timeout` variable captured by the handler
that `debounce(updatePreview, 500)` returned for input `i`. -/
structure App where
  backendBase : Str
  dom : Dom
  apiConfigured : Bool
  isConnected : Bool
  chart : Chart
  apiStatus : ApiStatus
  graphModalOpen : Bool
  results : Option CalculationResult
  calcButtonDisabled : Bool
  graphButtonDisabled : Bool
  messageLog : List Message
  requests : List NetRequest
  consoleErrors : List Str
  previewCalls : List (Nat × Dom)
  now : Nat
  nextTimerId : Nat
  timers : List Timer
  timeoutVar : InputId → Option Nat

/-- The gate `!apiConfigured || !isConnected` is not taken: the connection is Verified. -/
def App.verified (s : App) : Bool := s.apiConfigured && s.isConnected

/-- The arrow function `apiUrl`. -/
def apiUrl (s : App) (p : Str) : Str := s.backendBase ++ p

/-- The function `showMessage`: one notification is put on the page (in place of the one
shown before, and taken away again after five seconds); `messageLog` records the call. -/
def showMessage (message : Str) (type : MessageType) (s : App) : App :=
  { s with messageLog := s.messageLog ++ [{ text := message, type := type }] }

/-- The call `fetch(apiUrl(p), { method: 'POST', headers: getApiHeaders(), body })`. -/
def fetchPost (origin : Origin) (p : Str) (body : RequestBody) (s : App) : App :=
  { s with requests := s.requests ++
      [{ origin := origin, url := apiUrl s p, headers := getApiHeaders s.dom, body := body }] }

/-- The function `updateApiStatus`. -/
def updateApiStatus (s : App) : App :=
  if !s.apiConfigured then { s with apiStatus := .notConnected }
  else if s.isConnected then { s with apiStatus := .connected }
  else { s with apiStatus := .verifying }

/-- The function `hideGraphModal`. -/
def hideGraphModal (s : App) : App := { s with graphModalOpen := false }

/-- The function `verifyRapidApiConnection`, up to its `await fetch`. -/
def verifyRapidApiConnectionStart (s : App) : App :=
  fetchPost .verify "/api/calculate".toList (.calculation testPayload) s

/-- The function `verifyRapidApiConnection`, from the moment its fetch settles. -/
def verifyRapidApiConnectionResolve (o : FetchOutcome CalculationResult) (s : App) : App :=
  match o with
  | .ok _ =>
    updateApiStatus
      (showMessage "Verified connection to RapidAPI.".toList .success
        { s with isConnected := true })
  | .notOk _ statusText body =>
    updateApiStatus
      (showMessage ("RapidAPI verification failed: ".toList ++
          detailOr (safeJson body) statusText) .error
        { s with isConnected := false })
  | .networkError message =>
    updateApiStatus
      (showMessage ("RapidAPI verification error: ".toList ++ message) .error
        { s with isConnected := false })

/-- The flag computed by `saveApiConfig` and `loadApiConfig`:
`!!(baseUrl && apiKey && apiHost)` over the trimmed field values. -/
def configuredFlag (d : Dom) : Bool :=
  truthy (jsAnd (jsAnd (trim d.apiUrl) (trim d.apiKey)) (trim d.apiHost))

/-- The function `loadApiConfig`. -/
def loadApiConfig (s : App) : App :=
  updateApiStatus { s with apiConfigured := configuredFlag s.dom, isConnected := false }

/-- The function `saveApiConfig`, up to the `await fetch` of the probe it starts. -/
def saveApiConfigStart (s : App) : App :=
  let s1 := updateApiStatus { s with apiConfigured := configuredFlag s.dom, isConnected := false }
  if !s1.apiConfigured then
    showMessage
      "Incomplete credentials. Enter Endpoint URL, RapidAPI Key, and Host header.".toList
      .error s1
  else verifyRapidApiConnectionStart s1

/-- The function `displayResults`: the results panel shows the result. -/
def displayResults (result : CalculationResult) (s : App) : App :=
  { s with results := some result }

/-- The function `calculateSingle`, up to its `await fetch`, or to its end when the gate
stops it. -/
def calculateSingleStart (s : App) : App :=
  let s1 := { s with calcButtonDisabled := true }
  if !s1.apiConfigured || !s1.isConnected then
    { showMessage
        ("Please configure and verify RapidAPI connectivity (Endpoint URL, Key, Host) " ++
          "before making requests.").toList .error s1 with calcButtonDisabled := false }
  else fetchPost .calculate "/api/calculate".toList (.calculation (getFormData s1.dom)) s1

/-- The function `calculateSingle`, from the moment its fetch settles. -/
def calculateSingleResolve (o : FetchOutcome CalculationResult) (s : App) : App :=
  let s1 :=
    match o with
    | .ok (.parsed result) =>
      let s2 := displayResults result s
      { s2 with chart := updateSinglePointChart s2.chart result }
    | .ok (.invalid message) => showMessage ("Error: ".toList ++ message) .error s
    | .notOk _ _ (.parsed error) =>
      showMessage ("Calculation failed: ".toList ++ detailOr error "Unknown error".toList)
        .error s
    | .notOk _ _ (.invalid message) => showMessage ("Error: ".toList ++ message) .error s
    | .networkError message => showMessage ("Error: ".toList ++ message) .error s
  { s1 with calcButtonDisabled := false }

/-- The function `generateGraph`, up to its `await fetch`, or to its end when the gate
stops it. -/
def generateGraphStart (s : App) : App :=
  let s1 := { s with graphButtonDisabled := true }
  if !s1.apiConfigured || !s1.isConnected then
    { showMessage
        ("Please configure and verify RapidAPI connectivity (Endpoint URL, Key, Host) " ++
          "before generating graphs.").toList .error s1 with graphButtonDisabled := false }
  else
    let baseRequest := getFormData s1.dom
    let graphRequest : GraphRequest :=
      { parameter_name := s1.dom.parameterSelect
        start_value := parseFloat s1.dom.startValue
        end_value := parseFloat s1.dom.endValue
        steps := parseInt s1.dom.steps
        base_request := baseRequest }
    fetchPost .graph "/api/graph".toList (.sweep graphRequest) s1

/-- The function `generateGraph`, from the moment its fetch settles. -/
def generateGraphResolve (o : FetchOutcome SweepResult) (s : App) : App :=
  let s1 :=
    match o with
    | .ok (.parsed data) => hideGraphModal { s with chart := updateChart s.chart data }
    | .ok (.invalid message) => showMessage ("Error: ".toList ++ message) .error s
    | .notOk _ _ (.parsed error) =>
      showMessage ("Graph generation failed: ".toList ++ detailOr error "Unknown error".toList)
        .error s
    | .notOk _ _ (.invalid message) => showMessage ("Error: ".toList ++ message) .error s
    | .networkError message => showMessage ("Error: ".toList ++ message) .error s
  { s1 with graphButtonDisabled := false }

/-- One whole run of `generateGraph` with nothing else happening while its request is in
flight: when the gate stops it no request was made and nothing settles. -/
def generateGraph (o : FetchOutcome SweepResult) (s : App) : App :=
  if s.verified then generateGraphResolve o (generateGraphStart s) else generateGraphStart s

/-- The function `updatePreview`, up to its `await fetch`, or to its end when the gate
stops it. -/
def updatePreview (s : App) : App :=
  if !s.apiConfigured || !s.isConnected then s
  else fetchPost .preview "/api/calculate".toList (.calculation (getFormData s.dom)) s

/-- The function `updatePreview`, from the moment its fetch settles. -/
def updatePreviewResolve (o : FetchOutcome CalculationResult) (s : App) : App :=
  match o with
  | .ok (.parsed result) => { s with chart := updateSinglePointChart s.chart result }
  | .ok (.invalid message) =>
    { s with consoleErrors := s.consoleErrors ++ ["Preview update failed:".toList ++ message] }
  | .notOk _ _ _ => s
  | .networkError message =>
    { s with consoleErrors := s.consoleErrors ++ ["Preview update failed:".toList ++ message] }

/-! ## Timers and the debounced handlers -/

/-- The inputs that the `DOMContentLoaded` handler leaves without a listener. -/
def isCredentialInput (i : InputId) : Bool :=
  !(i ≠ .apiUrl && i ≠ .apiKey && i ≠ .apiHost)

/-- The delay passed to `debounce` by the `DOMContentLoaded` handler. -/
def debounceWait : Nat := 500

/-- The call `clearTimeout(timeout)`; `none` is an `undefined` handle. -/
def clearTimeout (handle : Option Nat) (s : App) : App :=
  match handle with
  | none => s
  | some id => { s with timers := s.timers.filter (fun t => t.id ≠ id) }

/-- The handler `executedFunction` returned by `debounce(updatePreview, 500)` for input `i`:
`clearTimeout(timeout); timeout = setTimeout(later, wait)`. -/
def executedFunction (i : InputId) (s : App) : App :=
  let s1 := clearTimeout (s.timeoutVar i) s
  let id := s1.nextTimerId
  { s1 with
    timers := s1.timers ++ [{ id := id, due := s1.now + debounceWait, owner := i }]
    nextTimerId := id + 1
    timeoutVar := fun j => if j = i then some id else s1.timeoutVar j }

/-- Timer `t` fires: it leaves the table and the clock stands at its due time. -/
def expire (t : Timer) (s : App) : App :=
  { s with timers := s.timers.filter (fun u => u.id ≠ t.id), now := max s.now t.due }

/-- The record of one call of `updatePreview`: the time and the form values at the call. -/
def logPreviewCall (s : App) : App :=
  { s with previewCalls := s.previewCalls ++ [(s.now, s.dom)] }

/-- The closure `later` of the handler of input `t.owner` running when timer `t` fires:
`clearTimeout(timeout); func(...args)` with `func = updatePreview`. -/
def fire (t : Timer) (s : App) : App :=
  let s1 := expire t s
  let s2 := clearTimeout (s1.timeoutVar t.owner) s1
  updatePreview (logPreviewCall s2)

/-- The timer that fires first: the least due time, the earlier `setTimeout` on a tie. -/
def earliest : List Timer → Option Timer
  | [] => none
  | t :: ts =>
    match earliest ts with
    | none => some t
    | some u => if t.due ≤ u.due then some t else some u

/-- The next timer to fire by time `T`, if any is due. -/
def dueTimer (T : Nat) (s : App) : Option Timer :=
  earliest (s.timers.filter (fun t => t.due ≤ T))

/-- Fire due timers one after the other, at most `fuel` of them. -/
def runTimers : Nat → Nat → App → App
  | 0, _, s => s
  | fuel + 1, T, s =>
    match dueTimer T s with
    | none => s
    | some t => runTimers fuel T (fire t s)

/-- Time passes until `T`: every timer due by then fires, in order. -/
def advanceTo (T : Nat) (s : App) : App :=
  let s1 := runTimers s.timers.length T s
  { s1 with now := max s1.now T }

/-- An `input` event on element `i` at time `t` after the user changed its value to `v`:
the listener, if the `DOMContentLoaded` handler attached one, runs. -/
def inputEvent (t : Nat) (i : InputId) (v : Str) (s : App) : App :=
  let s1 := advanceTo t s
  let s2 := { s1 with dom := s1.dom.set i v }
  if isCredentialInput i then s2 else executedFunction i s2

/-- What can happen on the page. -/
inductive Event where
  | input (t : Nat) (i : InputId) (v : Str)
  | tick (t : Nat)
  | previewSettled (o : FetchOutcome CalculationResult)
  | saveClicked
  | verifySettled (o : FetchOutcome CalculationResult)
  | calculateClicked
  | calculateSettled (o : FetchOutcome CalculationResult)
  | graphClicked
  | graphSettled (o : FetchOutcome SweepResult)

def step (e : Event) (s : App) : App :=
  match e with
  | .input t i v => inputEvent t i v s
  | .tick t => advanceTo t s
  | .previewSettled o => updatePreviewResolve o s
  | .saveClicked => saveApiConfigStart s
  | .verifySettled o => verifyRapidApiConnectionResolve o s
  | .calculateClicked => calculateSingleStart s
  | .calculateSettled o => calculateSingleResolve o s
  | .graphClicked => generateGraphStart s
  | .graphSettled o => generateGraphResolve o s

/-- The state after a sequence of events. -/
def run : List Event → App → App
  | [], s => s
  | e :: es, s => run es (step e s)

/-- The form as the page serves it is not part of the script; this is a page with every
field empty except the given credentials. -/
def domWith (url key host : Str) : Dom :=
  { apiUrl := url, apiKey := key, apiHost := host, currentH := [], beta0 := [],
    lambdaFactor := [], epsilon := [], baseOutput := [], alphaParam := [], gammaParam := [],
    previousH := [], systemId := [], outputLabels := [], parameterSelect := [],
    startValue := [], endValue := [], steps := [] }

/-- The page when the `DOMContentLoaded` handler has run on the form `d` up to its last
`await`: `initializeChart`, `loadApiConfig`, the listeners (the handlers of
`executedFunction`, each with its `timeout` still undefined) and, if credentials are
present, `updateApiStatus` and the start of `verifyRapidApiConnection`. -/
def pageLoaded (d : Dom) : App :=
  let s := loadApiConfig
    { backendBase := [], dom := d, apiConfigured := false, isConnected := false,
      chart := initializeChart, apiStatus := .notConnected, graphModalOpen := false,
      results := none, calcButtonDisabled := false, graphButtonDisabled := false,
      messageLog := [], requests := [], consoleErrors := [], previewCalls := [],
      now := 0, nextTimerId := 0, timers := [], timeoutVar := fun _ => none }
  if s.apiConfigured then verifyRapidApiConnectionStart (updateApiStatus s) else s

/-- The requests issued by `updatePreview`. -/
def previewRequests (s : App) : List NetRequest :=
  s.requests.filter (fun r => r.origin = .preview)

/-- The connection never being Verified along a run: not before any of its events and not
at its end. Timers fire only inside `input` and `tick` events, which leave the two flags
as they are, so this is also the state at every moment `updatePreview` runs. -/
def neverVerified : List Event → App → Prop
  | [], s => s.verified = false
  | e :: es, s => s.verified = false ∧ neverVerified es (step e s)

instance decNeverVerified : (evs : List Event) → (s : App) → Decidable (neverVerified evs s)
  | [], s => inferInstanceAs (Decidable (s.verified = false))
  | e :: es, s => @instDecidableAnd _ _ _ (decNeverVerified es (step e s))

/-- A burst of edits of the one input `i`: each entry is the time of an `input` event and
the value the element has then. -/
def burst (i : InputId) (edits : List (Nat × Str)) : List Event :=
  edits.map (fun e => Event.input e.1 i e.2)

/-- The last edit of a non-empty burst given by its first edit and the rest. -/
def lastEdit : Nat × Str → List (Nat × Str) → Nat × Str
  | e, [] => e
  | _, e :: es => lastEdit e es

/-- Each edit follows the previous one by less than the debounce wait. -/
def withinWindow (a b : Nat × Str) : Prop := a.1 ≤ b.1 ∧ b.1 < a.1 + debounceWait

instance decWithinWindow (a b : Nat × Str) : Decidable (withinWindow a b) :=
  inferInstanceAs (Decidable (_ ∧ _))

/-- The request `updatePreview` sends when the form values are `d`. -/
def previewRequest (s : App) (d : Dom) : NetRequest :=
  { origin := .preview, url := apiUrl s "/api/calculate".toList, headers := getApiHeaders d,
    body := .calculation (getFormData d) }

/-- State `s1` is state `s` with form values `d`, the clock at `t`, and exactly one timer
pending: the one of the handler of input `i`, held in its `timeout` variable and due
`debounceWait` after `t`. -/
def Armed (i : InputId) (t : Nat) (d : Dom) (s s1 : App) : Prop :=
  ∃ (id n : Nat) (tv : InputId → Option Nat), tv i = some id ∧
    s1 = { s with dom := d, now := t, timers := [{ id := id, due := t + debounceWait, owner := i }],
                  nextTimerId := n, timeoutVar := tv }

/-! ## The request builder as the specification words it -/

/-- The numeric parse of one token: the number read by `parseFloat`, or nothing when the
token does not parse. -/
def numericParse? (token : Str) : Option JSNum :=
  match parseFloat token with
  | .nan => none
  | n => some n

/-- The specification of `base_output`: split the text on commas, trim each token, keep in
order the values of the tokens that parse. -/
def specBaseOutput (text : Str) : List JSNum :=
  (splitComma text).filterMap (fun token => numericParse? (trim token))

/-! ## Strings: facts -/

theorem truthy_iff (s : Str) : truthy s = true ↔ s ≠ [] := by
  cases s <;> simp [truthy]

theorem truthy_jsAnd (a b : Str) : truthy (jsAnd a b) = (truthy a && truthy b) := by
  cases a <;> simp [jsAnd, truthy]

theorem dropWhile_eq_nil_iff_all (p : Char → Bool) (s : Str) :
    s.dropWhile p = [] ↔ ∀ c ∈ s, p c = true := by
  induction s with
  | nil => simp
  | cons c cs ih =>
    by_cases h : p c = true
    · simp [List.dropWhile, h, ih]
    · simp [List.dropWhile, h]

/-- A text trims to the empty string exactly when it is whitespace only. -/
theorem trim_eq_nil_iff (s : Str) : trim s = [] ↔ ∀ c ∈ s, isJsWhiteSpace c = true := by
  unfold trim trimStart
  rw [List.reverse_eq_nil_iff, dropWhile_eq_nil_iff_all]
  constructor
  · intro h
    by_contra hne
    push_neg at hne
    obtain ⟨c, hc, hw⟩ := hne
    have hnil : s.dropWhile isJsWhiteSpace ≠ [] := by
      rw [Ne, dropWhile_eq_nil_iff_all]
      push_neg
      exact ⟨c, hc, hw⟩
    have hhead := List.head_dropWhile_not isJsWhiteSpace s hnil
    have hmem : (s.dropWhile isJsWhiteSpace).head hnil ∈ (s.dropWhile isJsWhiteSpace).reverse :=
      List.mem_reverse.mpr (List.head_mem hnil)
    have := h _ hmem
    simp [this] at hhead
  · intro h c hc
    exact h c ((List.dropWhile_sublist _).subset (List.mem_reverse.mp hc))

theorem splitComma_ne_nil (s : Str) : splitComma s ≠ [] := by
  induction s with
  | nil => simp [splitComma]
  | cons c cs ih =>
    unfold splitComma
    split
    · simp
    · split <;> simp

/-! ## Request builder -/

theorem baseOutputOf_eq_spec (text : Str) : baseOutputOf text = specBaseOutput text := by
  unfold baseOutputOf specBaseOutput
  induction splitComma text with
  | nil => rfl
  | cons token rest ih =>
    simp only [List.map_cons, List.filter_cons, List.filterMap_cons]
    rw [← ih]
    cases h : parseFloat (trim token) <;> simp [JSNum.isNaN, numericParse?, h]

/-- C6: the `base_output` built by `getFormData` is the list obtained by splitting the text
on commas, trimming each token and keeping, in order, the values of exactly the tokens
whose numeric parse (`parseFloat`) is a number: its entries are the numbers read from
some token, the tokens kept are as many as the tokens that parse, so a token is dropped
exactly when its parse fails; `getFormData` is a total function (it raises nothing); and
the text `1, 2, x, 4` gives `[1, 2, 4]`. -/
theorem getFormData_base_output (d : Dom) :
    (getFormData d).base_output = specBaseOutput d.baseOutput ∧
    (∀ n : JSNum, n ∈ (getFormData d).base_output ↔
      (n ≠ .nan ∧ ∃ token ∈ splitComma d.baseOutput, parseFloat (trim token) = n)) ∧
    (getFormData d).base_output.length =
      ((splitComma d.baseOutput).filter
        (fun token => !(parseFloat (trim token)).isNaN)).length ∧
    (getFormData { d with baseOutput := "1, 2, x, 4".toList }).base_output =
      [JSNum.ofNat 1, JSNum.ofNat 2, JSNum.ofNat 4] ∧
    (getFormData { d with baseOutput := "1, 2, x, 4".toList }).base_output.map JSNum.toRat? =
      [some 1, some 2, some 4] := by
  have hex : baseOutputOf "1, 2, x, 4".toList =
      [JSNum.ofNat 1, JSNum.ofNat 2, JSNum.ofNat 4] := by decide
  refine ⟨baseOutputOf_eq_spec _, ?_, ?_, hex, ?_⟩
  · intro n
    show n ∈ baseOutputOf d.baseOutput ↔ _
    unfold baseOutputOf
    rw [List.mem_filter, List.mem_map]
    cases n <;> simp [JSNum.isNaN, and_comm]
  · show (baseOutputOf d.baseOutput).length = _
    unfold baseOutputOf
    rw [List.filter_map, List.length_map]
    rfl
  · show (baseOutputOf "1, 2, x, 4".toList).map JSNum.toRat? = _
    rw [hex]
    simp [JSNum.toRat?, JSNum.ofNat]

/-- C7: the request built by `getFormData` has `output_labels` exactly when the label text
is not blank and its number of comma-separated elements equals the length of the filtered
`base_output`; it is then the full list of trimmed labels in input order, and otherwise
the key is absent. With base output `1,2,3`, labels `a,b` give no `output_labels` and
labels `a,b,c` give `["a","b","c"]`. -/
theorem getFormData_output_labels (d : Dom) :
    ((getFormData d).output_labels.isSome = true ↔
      (trim d.outputLabels ≠ [] ∧
        (splitComma d.outputLabels).length = (getFormData d).base_output.length)) ∧
    (getFormData d).output_labels =
      (if trim d.outputLabels ≠ [] ∧
          (splitComma d.outputLabels).length = (getFormData d).base_output.length
        then some ((splitComma d.outputLabels).map trim) else none) ∧
    (getFormData
      { d with baseOutput := "1,2,3".toList, outputLabels := "a,b".toList }).output_labels =
        none ∧
    (getFormData
      { d with baseOutput := "1,2,3".toList, outputLabels := "a,b,c".toList }).output_labels =
        some ["a".toList, "b".toList, "c".toList] := by
  have key : (getFormData d).output_labels =
      (if trim d.outputLabels ≠ [] ∧
          (splitComma d.outputLabels).length = (getFormData d).base_output.length
        then some ((splitComma d.outputLabels).map trim) else none) := by
    simp only [getFormData, outputLabelsOf]
    by_cases h : trim d.outputLabels = []
    · simp [h, truthy]
    · have ht : truthy (trim d.outputLabels) = true := (truthy_iff _).mpr h
      by_cases hl : (splitComma d.outputLabels).length = (baseOutputOf d.baseOutput).length
      · simp [h, ht, hl]
      · simp [h, ht, hl]
  refine ⟨?_, key, ?_, ?_⟩
  · rw [key]
    split <;> simp_all
  · simp only [getFormData]
    have h1 : outputLabelsOf "a,b".toList = some ["a".toList, "b".toList] := by decide
    have h2 : baseOutputOf "1,2,3".toList = [.ofNat 1, .ofNat 2, .ofNat 3] := by decide
    rw [h1, h2]
    rfl
  · simp only [getFormData]
    have h1 : outputLabelsOf "a,b,c".toList = some ["a".toList, "b".toList, "c".toList] := by
      decide
    have h2 : baseOutputOf "1,2,3".toList = [.ofNat 1, .ofNat 2, .ofNat 3] := by decide
    rw [h1, h2]
    rfl

/-! ## Credentials -/

theorem configuredFlag_iff (d : Dom) :
    configuredFlag d = true ↔ (trim d.apiUrl ≠ [] ∧ trim d.apiKey ≠ [] ∧ trim d.apiHost ≠ []) := by
  simp [configuredFlag, truthy_jsAnd, truthy_iff, and_assoc]

theorem saveApiConfigStart_apiConfigured (s : App) :
    (saveApiConfigStart s).apiConfigured = configuredFlag s.dom := by
  unfold saveApiConfigStart updateApiStatus
  cases h : configuredFlag s.dom <;>
    simp [h, showMessage, verifyRapidApiConnectionStart, fetchPost]

theorem saveApiConfigStart_isConnected (s : App) :
    (saveApiConfigStart s).isConnected = false := by
  unfold saveApiConfigStart updateApiStatus
  cases h : configuredFlag s.dom <;>
    simp [h, showMessage, verifyRapidApiConnectionStart, fetchPost]

theorem loadApiConfig_apiConfigured (s : App) :
    (loadApiConfig s).apiConfigured = configuredFlag s.dom := by
  unfold loadApiConfig updateApiStatus
  cases h : configuredFlag s.dom <;> simp [h]

/-- C8: for every page state, whatever the three credential field texts are, the flag
`apiConfigured` set by `saveApiConfig` and by `loadApiConfig` is true exactly when all
three are non-empty after trimming, that is when none of them is empty or whitespace
only; `getApiHeaders` returns the `Content-Type` header followed by the three credential
headers (carrying the trimmed values) under exactly that condition and the `Content-Type`
header alone otherwise. -/
theorem apiConfigured_iff_all_fields_nonblank (s : App) :
    ((saveApiConfigStart s).apiConfigured = true ↔
      (trim s.dom.apiUrl ≠ [] ∧ trim s.dom.apiKey ≠ [] ∧ trim s.dom.apiHost ≠ [])) ∧
    ((loadApiConfig s).apiConfigured = true ↔
      (trim s.dom.apiUrl ≠ [] ∧ trim s.dom.apiKey ≠ [] ∧ trim s.dom.apiHost ≠ [])) ∧
    ((trim s.dom.apiUrl ≠ [] ∧ trim s.dom.apiKey ≠ [] ∧ trim s.dom.apiHost ≠ []) ↔
      ((∃ c ∈ s.dom.apiUrl, isJsWhiteSpace c = false) ∧
        (∃ c ∈ s.dom.apiKey, isJsWhiteSpace c = false) ∧
        (∃ c ∈ s.dom.apiHost, isJsWhiteSpace c = false))) ∧
    getApiHeaders s.dom =
      (if trim s.dom.apiUrl ≠ [] ∧ trim s.dom.apiKey ≠ [] ∧ trim s.dom.apiHost ≠ [] then
        [("Content-Type".toList, "application/json".toList),
          ("X-RapidAPI-Base-Url".toList, trim s.dom.apiUrl),
          ("X-RapidAPI-Key".toList, trim s.dom.apiKey),
          ("X-RapidAPI-Host".toList, trim s.dom.apiHost)]
      else [("Content-Type".toList, "application/json".toList)]) := by
  refine ⟨?_, ?_, ?_, ?_⟩
  · rw [saveApiConfigStart_apiConfigured, configuredFlag_iff]
  · rw [loadApiConfig_apiConfigured, configuredFlag_iff]
  · simp only [Ne, trim_eq_nil_iff]
    push_neg
    simp
  · have h := configuredFlag_iff s.dom
    unfold configuredFlag at h
    unfold getApiHeaders
    by_cases hc : trim s.dom.apiUrl ≠ [] ∧ trim s.dom.apiKey ≠ [] ∧ trim s.dom.apiHost ≠ []
    · rw [if_pos hc]
      simp only [h.mpr hc, if_true]
      rfl
    · rw [if_neg hc]
      have : ¬ truthy (jsAnd (jsAnd (trim s.dom.apiUrl) (trim s.dom.apiKey))
          (trim s.dom.apiHost)) = true := fun ht => hc (h.mp ht)
      simp only [this]
      rfl

/-! ## Chart -/

/-- C4: after `updateChart` on a sweep result the chart labels are `parameter_values` and
series 0, 1 and 2 are the lists of `output_gain`, `control_parameter` and
`processing_factor` of the elements of `results`: each as long as `results`, and entry
`i` of each is the field of `results[i]`. For `parameter_values = [0.1, 0.2, 0.3]` and
results with `output_gain` 10, 20, 30 the labels are `[0.1, 0.2, 0.3]` and series 0 is
`[10, 20, 30]`. -/
theorem updateChart_maps_sweep (chart : Chart) (data : SweepResult) :
    (updateChart chart data).labels = data.parameter_values ∧
    (updateChart chart data).data0 = data.results.map (fun r => r.output_gain) ∧
    (updateChart chart data).data1 = data.results.map (fun r => r.control_parameter) ∧
    (updateChart chart data).data2 = data.results.map (fun r => r.processing_factor) ∧
    (updateChart chart data).data0.length = data.results.length ∧
    (updateChart chart data).data1.length = data.results.length ∧
    (updateChart chart data).data2.length = data.results.length ∧
    (∀ i : Fin data.results.length,
      (updateChart chart data).data0[i.val]? = some (data.results.get i).output_gain ∧
      (updateChart chart data).data1[i.val]? = some (data.results.get i).control_parameter ∧
      (updateChart chart data).data2[i.val]? = some (data.results.get i).processing_factor) ∧
    (∀ (n : Str) (a b c : CalculationResult),
      (updateChart chart
          { parameter_values := [.fin false 1 (-1), .fin false 2 (-1), .fin false 3 (-1)],
            results := [{ a with output_gain := .ofNat 10 }, { b with output_gain := .ofNat 20 },
              { c with output_gain := .ofNat 30 }],
            parameter_name := n }).labels =
        [.fin false 1 (-1), .fin false 2 (-1), .fin false 3 (-1)] ∧
      (updateChart chart
          { parameter_values := [.fin false 1 (-1), .fin false 2 (-1), .fin false 3 (-1)],
            results := [{ a with output_gain := .ofNat 10 }, { b with output_gain := .ofNat 20 },
              { c with output_gain := .ofNat 30 }],
            parameter_name := n }).data0 =
        [JSNum.ofNat 10, JSNum.ofNat 20, JSNum.ofNat 30]) := by
  refine ⟨rfl, rfl, rfl, rfl, ?_, ?_, ?_, ?_, ?_⟩
  · simp [updateChart]
  · simp [updateChart]
  · simp [updateChart]
  · intro i
    simp [updateChart, List.getElem?_map]
  · intro n a b c
    exact ⟨rfl, rfl⟩

/-- The sweep result used below: a sweep over `beta_0` with one point. -/
def sampleSweep : SweepResult :=
  { parameter_values := [.ofNat 1]
    results :=
      [{ h_value := .ofNat 1, delta_h := .ofNat 0, processing_factor := .ofNat 2,
         control_parameter := .ofNat 3, output_gain := .ofNat 4 }]
    parameter_name := "beta_0".toList }

/-- The single-point result used below. -/
def sampleResult : CalculationResult :=
  { h_value := .ofNat 5, delta_h := .ofNat 0, processing_factor := .ofNat 6,
    control_parameter := .ofNat 7, output_gain := .ofNat 8 }

/-- C9, what the code does: `updateChart` replaces every field of the chart (two charts
updated with the same sweep result are equal), but `updateSinglePointChart` never writes
the x-axis label, which keeps the value an earlier update left. After a sweep over
`beta_0` and then a single-point update the x-axis label is still `BETA 0`, while the
same single-point result applied to the initial chart leaves `Parameter Value`: two prior
chart states and one response end in two different chart states. -/
theorem updateSinglePointChart_keeps_xAxisLabel :
    (∀ (c1 c2 : Chart) (data : SweepResult), updateChart c1 data = updateChart c2 data) ∧
    (∀ (c : Chart) (r : CalculationResult),
      (updateSinglePointChart c r).xAxisLabel = c.xAxisLabel) ∧
    (updateSinglePointChart (updateChart initializeChart sampleSweep) sampleResult).xAxisLabel =
      "BETA 0".toList ∧
    (updateSinglePointChart initializeChart sampleResult).xAxisLabel =
      "Parameter Value".toList ∧
    updateSinglePointChart (updateChart initializeChart sampleSweep) sampleResult ≠
      updateSinglePointChart initializeChart sampleResult := by
  refine ⟨fun _ _ _ => rfl, fun _ _ => rfl, by decide, by decide, by decide⟩

/-! ## Sweep failures -/

/-- A page whose connection is Verified: the page was loaded with the three credentials
present and the probe started at load succeeded. -/
def verifiedPage : App :=
  run [.verifySettled (.ok (.parsed sampleResult))]
    (pageLoaded (domWith "https://api.example.com".toList "key".toList "host".toList))

theorem generateGraphStart_of_verified (s : App) (h : s.verified = true) :
    (generateGraphStart s).chart = s.chart ∧
    (generateGraphStart s).messageLog = s.messageLog := by
  unfold App.verified at h
  simp only [Bool.and_eq_true] at h
  simp [generateGraphStart, h.1, h.2, fetchPost]

/-- C5: in a Verified state, for every prior chart and every failed sweep response (a
non-2xx response whose JSON body has a non-empty `detail` string `d`), `generateGraph`
calls `showMessage` exactly once, with type `error` and the text
`Graph generation failed: ` followed by `d` (so the text contains `d`), and the chart
(labels, the three series, title, x-axis label) is the one from before the call. -/
theorem generateGraph_failed_sweep (s : App) (status : Nat) (statusText d : Str)
    (hv : s.verified = true) (hd : d ≠ []) :
    (generateGraph (.notOk status statusText (.parsed { detail := some d })) s).messageLog =
      s.messageLog ++ [{ text := "Graph generation failed: ".toList ++ d, type := .error }] ∧
    (∃ before after : Str, "Graph generation failed: ".toList ++ d = before ++ d ++ after) ∧
    (generateGraph (.notOk status statusText (.parsed { detail := some d })) s).chart =
      s.chart := by
  obtain ⟨hc, hm⟩ := generateGraphStart_of_verified s hv
  have ht : truthy d = true := (truthy_iff d).mpr hd
  refine ⟨?_, ⟨"Graph generation failed: ".toList, [], by simp⟩, ?_⟩
  · simp [generateGraph, hv, generateGraphResolve, showMessage, detailOr, ht, hm]
  · simp [generateGraph, hv, generateGraphResolve, showMessage, hc]

/-- C5 at HTTP 400 with body detail `bad range`, on the Verified page. -/
theorem generateGraph_failed_sweep_witness :
    (generateGraph (.notOk 400 "Bad Request".toList
        (.parsed { detail := some "bad range".toList })) verifiedPage).messageLog =
      verifiedPage.messageLog ++
        [{ text := "Graph generation failed: ".toList ++ "bad range".toList, type := .error }] ∧
    (∃ before after : Str,
      "Graph generation failed: ".toList ++ "bad range".toList =
        before ++ "bad range".toList ++ after) ∧
    (generateGraph (.notOk 400 "Bad Request".toList
        (.parsed { detail := some "bad range".toList })) verifiedPage).chart =
      verifiedPage.chart :=
  generateGraph_failed_sweep verifiedPage 400 "Bad Request".toList "bad range".toList
    (by decide) (by decide)

/-- C10 as amended: in a Verified state, for every failed sweep response (non-2xx) whose
body parses as a JSON object, `generateGraph` calls `showMessage` exactly once, with type
`error` and the text `Graph generation failed: ` followed by the `detail` when the body
has a non-empty one and by the fixed text `Unknown error` when the body has no `detail`
(as the empty object) or an empty one; the status text of the response plays no part. The
chart is the one from before the call. -/
theorem generateGraph_failed_sweep_fallback (s : App) (status : Nat) (statusText : Str)
    (error : ErrorObject) (hv : s.verified = true) :
    (generateGraph (.notOk status statusText (.parsed error)) s).messageLog =
      s.messageLog ++
        [{ text := "Graph generation failed: ".toList ++
            (match error.detail with
              | some d => if d ≠ [] then d else "Unknown error".toList
              | none => "Unknown error".toList),
           type := .error }] ∧
    (generateGraph (.notOk status statusText (.parsed error)) s).chart = s.chart := by
  obtain ⟨hc, hm⟩ := generateGraphStart_of_verified s hv
  refine ⟨?_, ?_⟩
  · simp only [generateGraph, hv, if_true, generateGraphResolve, showMessage, hm, detailOr]
    cases hde : error.detail with
    | none => rfl
    | some d => cases d <;> simp [truthy]
  · simp [generateGraph, hv, generateGraphResolve, showMessage, hc]

/-- C10 as amended, at HTTP 400 `Bad Request` with the empty object as body, on the
Verified page. -/
theorem generateGraph_failed_sweep_fallback_witness :
    (generateGraph (.notOk 400 "Bad Request".toList (.parsed { detail := none }))
        verifiedPage).messageLog =
      verifiedPage.messageLog ++
        [{ text := "Graph generation failed: ".toList ++ "Unknown error".toList,
           type := .error }] :=
  (generateGraph_failed_sweep_fallback verifiedPage 400 "Bad Request".toList
    { detail := none } (by decide)).1

/-- C10 as stated fails: on the Verified page a failed sweep response (HTTP 400, status
text `Bad Request`) whose body is the empty object makes `generateGraph` show the one
notification `Graph generation failed: Unknown error`, a text that does not contain the
status text. -/
theorem generateGraph_ignores_statusText :
    verifiedPage.verified = true ∧
    ((generateGraph (.notOk 400 "Bad Request".toList (.parsed { detail := none }))
        verifiedPage).messageLog.drop verifiedPage.messageLog.length =
      [{ text := "Graph generation failed: Unknown error".toList, type := .error }]) ∧
    ¬ ("Bad Request".toList <:+: "Graph generation failed: Unknown error".toList) := by
  refine ⟨by decide, by decide, by decide⟩

/-- A failed sweep response whose body is not JSON: `generateGraph` reads the body with
`response.json()`, which throws, and the `catch` shows `Error: ` followed by the
exception's message; `verifyRapidApiConnection` reads it with `safeJson` and shows the
status text. -/
theorem generateGraph_unparsable_body :
    ((generateGraph (.notOk 502 "Bad Gateway".toList (.invalid "Unexpected token <".toList))
        verifiedPage).messageLog.drop verifiedPage.messageLog.length =
      [{ text := "Error: Unexpected token <".toList, type := .error }]) ∧
    ((verifyRapidApiConnectionResolve
        (.notOk 502 "Bad Gateway".toList (.invalid "Unexpected token <".toList))
        verifiedPage).messageLog.drop verifiedPage.messageLog.length =
      [{ text := "RapidAPI verification failed: Bad Gateway".toList, type := .error }]) := by
  refine ⟨by decide, by decide⟩

/-! ## Timers: facts -/

theorem updatePreview_of_not_verified (s : App) (h : s.verified = false) :
    updatePreview s = s := by
  unfold App.verified at h
  unfold updatePreview
  cases ha : s.apiConfigured <;> cases hc : s.isConnected <;> simp_all

@[simp] theorem updatePreview_frame (s : App) :
    (updatePreview s).apiConfigured = s.apiConfigured ∧
    (updatePreview s).isConnected = s.isConnected ∧
    (updatePreview s).timers = s.timers ∧
    (updatePreview s).timeoutVar = s.timeoutVar ∧
    (updatePreview s).now = s.now ∧
    (updatePreview s).dom = s.dom ∧
    (updatePreview s).previewCalls = s.previewCalls ∧
    (updatePreview s).nextTimerId = s.nextTimerId ∧
    (updatePreview s).chart = s.chart ∧
    (updatePreview s).messageLog = s.messageLog := by
  unfold updatePreview
  split <;> simp [fetchPost]

@[simp] theorem clearTimeout_frame (h : Option Nat) (s : App) :
    (clearTimeout h s).apiConfigured = s.apiConfigured ∧
    (clearTimeout h s).isConnected = s.isConnected ∧
    (clearTimeout h s).requests = s.requests ∧
    (clearTimeout h s).now = s.now ∧
    (clearTimeout h s).dom = s.dom ∧
    (clearTimeout h s).previewCalls = s.previewCalls ∧
    (clearTimeout h s).timeoutVar = s.timeoutVar ∧
    (clearTimeout h s).nextTimerId = s.nextTimerId ∧
    (clearTimeout h s).chart = s.chart ∧
    (clearTimeout h s).messageLog = s.messageLog := by
  cases h <;> simp [clearTimeout]

@[simp] theorem expire_frame (t : Timer) (s : App) :
    (expire t s).apiConfigured = s.apiConfigured ∧
    (expire t s).isConnected = s.isConnected ∧
    (expire t s).requests = s.requests ∧
    (expire t s).now = max s.now t.due ∧
    (expire t s).dom = s.dom ∧
    (expire t s).previewCalls = s.previewCalls ∧
    (expire t s).timeoutVar = s.timeoutVar ∧
    (expire t s).nextTimerId = s.nextTimerId ∧
    (expire t s).timers = s.timers.filter (fun u => u.id ≠ t.id) ∧
    (expire t s).chart = s.chart ∧
    (expire t s).messageLog = s.messageLog := by
  simp [expire]

@[simp] theorem logPreviewCall_frame (s : App) :
    (logPreviewCall s).apiConfigured = s.apiConfigured ∧
    (logPreviewCall s).isConnected = s.isConnected ∧
    (logPreviewCall s).requests = s.requests ∧
    (logPreviewCall s).now = s.now ∧
    (logPreviewCall s).dom = s.dom ∧
    (logPreviewCall s).previewCalls = s.previewCalls ++ [(s.now, s.dom)] ∧
    (logPreviewCall s).timeoutVar = s.timeoutVar ∧
    (logPreviewCall s).nextTimerId = s.nextTimerId ∧
    (logPreviewCall s).timers = s.timers ∧
    (logPreviewCall s).chart = s.chart ∧
    (logPreviewCall s).messageLog = s.messageLog := by
  simp [logPreviewCall]

theorem clearTimeout_timers_length (h : Option Nat) (s : App) :
    (clearTimeout h s).timers.length ≤ s.timers.length := by
  cases h
  · simp [clearTimeout]
  · simp only [clearTimeout]
    exact List.length_filter_le _ _

theorem fire_verified (t : Timer) (s : App) : (fire t s).verified = s.verified := by
  simp [App.verified, fire]

theorem fire_requests_of_not_verified (t : Timer) (s : App) (h : s.verified = false) :
    (fire t s).requests = s.requests := by
  have hv : (logPreviewCall (clearTimeout ((expire t s).timeoutVar t.owner)
      (expire t s))).verified = false := by
    rw [← h]
    simp [App.verified]
  unfold fire
  simp only []
  rw [updatePreview_of_not_verified _ hv]
  simp

theorem fire_frame (t : Timer) (s : App) :
    (fire t s).apiConfigured = s.apiConfigured ∧
    (fire t s).isConnected = s.isConnected ∧
    (fire t s).dom = s.dom ∧
    (fire t s).chart = s.chart ∧
    (fire t s).messageLog = s.messageLog := by
  simp [fire]

theorem runTimers_frame (fuel T : Nat) (s : App) :
    (runTimers fuel T s).apiConfigured = s.apiConfigured ∧
    (runTimers fuel T s).isConnected = s.isConnected ∧
    (runTimers fuel T s).dom = s.dom ∧
    (runTimers fuel T s).chart = s.chart ∧
    (runTimers fuel T s).messageLog = s.messageLog := by
  induction fuel generalizing s with
  | zero => simp [runTimers]
  | succ n ih =>
    unfold runTimers
    split
    · simp
    · rename_i t _
      obtain ⟨h1, h2, h3, h4, h5⟩ := ih (fire t s)
      obtain ⟨g1, g2, g3, g4, g5⟩ := fire_frame t s
      exact ⟨h1.trans g1, h2.trans g2, h3.trans g3, h4.trans g4, h5.trans g5⟩

theorem runTimers_verified (fuel T : Nat) (s : App) :
    (runTimers fuel T s).verified = s.verified := by
  unfold App.verified
  rw [(runTimers_frame fuel T s).1, (runTimers_frame fuel T s).2.1]

theorem runTimers_requests_of_not_verified (fuel T : Nat) (s : App)
    (h : s.verified = false) : (runTimers fuel T s).requests = s.requests := by
  induction fuel generalizing s with
  | zero => rfl
  | succ n ih =>
    unfold runTimers
    split
    · rfl
    · rw [ih _ (by rw [fire_verified, h]), fire_requests_of_not_verified _ _ h]

theorem advanceTo_frame (T : Nat) (s : App) :
    (advanceTo T s).apiConfigured = s.apiConfigured ∧
    (advanceTo T s).isConnected = s.isConnected ∧
    (advanceTo T s).dom = s.dom ∧
    (advanceTo T s).chart = s.chart ∧
    (advanceTo T s).messageLog = s.messageLog := by
  simpa [advanceTo] using runTimers_frame s.timers.length T s

theorem advanceTo_verified (T : Nat) (s : App) : (advanceTo T s).verified = s.verified := by
  unfold App.verified
  rw [(advanceTo_frame T s).1, (advanceTo_frame T s).2.1]

theorem advanceTo_requests_of_not_verified (T : Nat) (s : App) (h : s.verified = false) :
    (advanceTo T s).requests = s.requests := by
  simpa [advanceTo] using runTimers_requests_of_not_verified s.timers.length T s h

theorem executedFunction_frame (i : InputId) (s : App) :
    (executedFunction i s).apiConfigured = s.apiConfigured ∧
    (executedFunction i s).isConnected = s.isConnected ∧
    (executedFunction i s).requests = s.requests ∧
    (executedFunction i s).dom = s.dom ∧
    (executedFunction i s).previewCalls = s.previewCalls := by
  unfold executedFunction
  simp

theorem inputEvent_verified (t : Nat) (i : InputId) (v : Str) (s : App) :
    (inputEvent t i v s).verified = s.verified := by
  have h := advanceTo_verified t s
  unfold App.verified at h ⊢
  unfold inputEvent
  simp only []
  split
  · simpa using h
  · rw [(executedFunction_frame _ _).1, (executedFunction_frame _ _).2.1]
    simpa using h

theorem inputEvent_requests_of_not_verified (t : Nat) (i : InputId) (v : Str) (s : App)
    (h : s.verified = false) : (inputEvent t i v s).requests = s.requests := by
  have hr := advanceTo_requests_of_not_verified t s h
  unfold inputEvent
  simp only []
  split
  · simpa using hr
  · rw [(executedFunction_frame _ _).2.2.1]
    simpa using hr

theorem earliest_mem (l : List Timer) (t : Timer) (h : earliest l = some t) : t ∈ l := by
  induction l generalizing t with
  | nil => simp [earliest] at h
  | cons a l ih =>
    unfold earliest at h
    split at h
    · simp only [Option.some.injEq] at h
      simp [h]
    · rename_i u hu
      split at h
      · simp only [Option.some.injEq] at h
        simp [h]
      · simp only [Option.some.injEq] at h
        subst h
        exact List.mem_cons_of_mem _ (ih _ hu)

theorem dueTimer_mem (T : Nat) (s : App) (t : Timer) (h : dueTimer T s = some t) :
    t ∈ s.timers :=
  (List.mem_filter.mp (earliest_mem _ _ h)).1

theorem fire_timers_length_lt (t : Timer) (s : App) (h : t ∈ s.timers) :
    (fire t s).timers.length < s.timers.length := by
  unfold fire
  simp only [updatePreview_frame, logPreviewCall_frame]
  refine lt_of_le_of_lt (clearTimeout_timers_length _ _) ?_
  rw [(expire_frame t s).2.2.2.2.2.2.2.2.1]
  have hlt : (s.timers.filter (fun u => decide (u.id ≠ t.id))).length < s.timers.length := by
    apply List.length_filter_lt_length_iff_exists.mpr
    exact ⟨t, h, by simp⟩
  exact hlt

theorem runTimers_no_due (T : Nat) (fuel : Nat) (s : App) (h : s.timers.length ≤ fuel) :
    dueTimer T (runTimers fuel T s) = none := by
  induction fuel generalizing s with
  | zero =>
    have : s.timers = [] := List.length_eq_zero.mp (Nat.le_zero.mp h)
    simp [runTimers, dueTimer, this, earliest]
  | succ n ih =>
    unfold runTimers
    split
    · assumption
    · rename_i t ht
      apply ih
      have := fire_timers_length_lt t s (dueTimer_mem T s t ht)
      omega

/-- The fuel given by `advanceTo` is enough: no timer due by `T` is left pending. -/
theorem advanceTo_no_due (T : Nat) (s : App) : dueTimer T (advanceTo T s) = none := by
  have := runTimers_no_due T s.timers.length s le_rfl
  simpa [advanceTo, dueTimer] using this

theorem step_previewRequests_of_not_verified (e : Event) (s : App) (h : s.verified = false) :
    previewRequests (step e s) = previewRequests s := by
  unfold previewRequests
  cases e with
  | input t i v => simp only [step]; rw [inputEvent_requests_of_not_verified _ _ _ _ h]
  | tick t => simp only [step]; rw [advanceTo_requests_of_not_verified _ _ h]
  | previewSettled o =>
    simp only [step, updatePreviewResolve]
    split <;> rfl
  | saveClicked =>
    simp only [step, saveApiConfigStart, updateApiStatus]
    cases hc : configuredFlag s.dom <;>
      simp [hc, showMessage, verifyRapidApiConnectionStart, fetchPost]
  | verifySettled o =>
    simp only [step, verifyRapidApiConnectionResolve, updateApiStatus]
    cases o <;> simp [showMessage] <;> split <;> simp
  | calculateClicked =>
    unfold App.verified at h
    simp only [step, calculateSingleStart]
    cases ha : s.apiConfigured <;> cases hc : s.isConnected <;> simp_all [showMessage]
  | calculateSettled o =>
    simp only [step, calculateSingleResolve]
    split <;> simp [showMessage, displayResults]
  | graphClicked =>
    unfold App.verified at h
    simp only [step, generateGraphStart]
    cases ha : s.apiConfigured <;> cases hc : s.isConnected <;> simp_all [showMessage]
  | graphSettled o =>
    simp only [step, generateGraphResolve]
    split <;> simp [showMessage, hideGraphModal]

theorem neverVerified_head (evs : List Event) (s : App) (h : neverVerified evs s) :
    s.verified = false := by
  cases evs with
  | nil => exact h
  | cons e es => exact h.1

theorem run_previewRequests_of_neverVerified (evs : List Event) (s : App)
    (h : neverVerified evs s) : previewRequests (run evs s) = previewRequests s := by
  induction evs generalizing s with
  | nil => rfl
  | cons e es ih =>
    simp only [run]
    rw [ih _ h.2, step_previewRequests_of_not_verified e s h.1]

theorem previewRequests_pageLoaded (d : Dom) : previewRequests (pageLoaded d) = [] := by
  unfold previewRequests pageLoaded loadApiConfig updateApiStatus
  cases h : configuredFlag d <;> simp [h, verifyRapidApiConnectionStart, fetchPost]

/-- C1: whenever the connection is not Verified when `updatePreview` runs (`apiConfigured`
is false or `isConnected` is false), `updatePreview` leaves the whole page state as it
is: no `fetch`, no `showMessage`, the chart untouched. Hence along any run of events
(edits of any input, timers firing as time passes, requests settling, button clicks) in
which the connection is never Verified, the preview requests at the end are the ones
from before the run, and zero when the run starts at page load. Letting time pass always
fires every timer that is due. -/
theorem updatePreview_gated (s0 s : App) (evs : List Event)
    (h0 : s0.apiConfigured = false ∨ s0.isConnected = false)
    (hrun : neverVerified evs s) :
    updatePreview s0 = s0 ∧
    (updatePreview s0).requests = s0.requests ∧
    (updatePreview s0).messageLog = s0.messageLog ∧
    (updatePreview s0).chart = s0.chart ∧
    previewRequests (run evs s) = previewRequests s ∧
    (∀ d : Dom, s = pageLoaded d → (previewRequests (run evs s)).length = 0) ∧
    (∀ (T : Nat) (s1 : App), dueTimer T (advanceTo T s1) = none) := by
  have hv : s0.verified = false := by
    unfold App.verified
    rcases h0 with h | h <;> simp [h]
  have hu := updatePreview_of_not_verified s0 hv
  refine ⟨hu, by rw [hu], by rw [hu], by rw [hu],
    run_previewRequests_of_neverVerified evs s hrun, ?_, advanceTo_no_due⟩
  intro d hd
  rw [run_previewRequests_of_neverVerified evs s hrun, hd, previewRequests_pageLoaded]
  rfl

/-- A page loaded with empty credential fields. -/
def unconfiguredPage : App := pageLoaded (domWith [] [] [])

/-- Edits of two inputs, time passing, a click on the sweep button. -/
def unverifiedRun : List Event :=
  [.input 0 .currentH "1".toList, .input 100 .beta0 "2".toList, .tick 700, .graphClicked,
    .input 800 .apiKey "k".toList, .tick 2000]

/-- C1 on the page loaded without credentials: the run fires two preview calls and
sends no preview request. -/
theorem updatePreview_gated_witness :
    updatePreview unconfiguredPage = unconfiguredPage ∧
    previewRequests (run unverifiedRun unconfiguredPage) = previewRequests unconfiguredPage ∧
    (previewRequests (run unverifiedRun unconfiguredPage)).length = 0 ∧
    (run unverifiedRun unconfiguredPage).previewCalls.map Prod.fst = [500, 600] :=
  have h := updatePreview_gated unconfiguredPage unconfiguredPage unverifiedRun
    (Or.inl (by decide)) (by decide)
  ⟨h.1, h.2.2.2.2.1, h.2.2.2.2.2.1 _ rfl, by decide⟩

/-! ## Debounce -/

theorem Dom.set_set (d : Dom) (i : InputId) (v w : Str) : (d.set i w).set i v = d.set i v := by
  cases i <;> rfl

theorem inputEvent_idle (s : App) (i : InputId) (t : Nat) (v : Str)
    (hi : isCredentialInput i = false) (hidle : s.timers = []) (hnow : s.now ≤ t) :
    Armed i t (s.dom.set i v) s (inputEvent t i v s) := by
  refine ⟨s.nextTimerId, s.nextTimerId + 1,
    fun j => if j = i then some s.nextTimerId else s.timeoutVar j, by simp, ?_⟩
  have hmax : max s.now t = t := max_eq_right hnow
  unfold inputEvent advanceTo
  simp only [hidle, List.length_nil, runTimers, hi]
  unfold executedFunction
  cases htv : s.timeoutVar i <;> simp [clearTimeout, hmax, htv, hidle]

theorem inputEvent_armed (s s1 : App) (i : InputId) (t t1 : Nat) (d : Dom) (v : Str)
    (hi : isCredentialInput i = false) (h : Armed i t d s s1)
    (h1 : t ≤ t1) (h2 : t1 < t + debounceWait) :
    Armed i t1 (d.set i v) s (inputEvent t1 i v s1) := by
  obtain ⟨id, n, tv, htv, rfl⟩ := h
  refine ⟨n, n + 1, fun j => if j = i then some n else tv j, by simp, ?_⟩
  have hmax : max t t1 = t1 := max_eq_right h1
  have hnd : ¬ (t + debounceWait ≤ t1) := by omega
  unfold inputEvent advanceTo
  simp only [List.length_singleton, runTimers, dueTimer, List.filter, hnd, decide_False,
    earliest, hi]
  unfold executedFunction
  simp [clearTimeout, hmax, htv]

theorem burst_armed (s : App) (i : InputId) (hi : isCredentialInput i = false) :
    ∀ (rest : List (Nat × Str)) (e : Nat × Str) (s1 : App),
      Armed i e.1 (s.dom.set i e.2) s s1 → List.Chain withinWindow e rest →
      Armed i (lastEdit e rest).1 (s.dom.set i (lastEdit e rest).2) s (run (burst i rest) s1) := by
  intro rest
  induction rest with
  | nil => intro e s1 h _; exact h
  | cons e1 rest ih =>
    intro e s1 h hc
    rw [List.chain_cons] at hc
    have h1 := inputEvent_armed s s1 i e.1 e1.1 (s.dom.set i e.2) e1.2 hi h hc.1.1 hc.1.2
    rw [Dom.set_set] at h1
    exact ih e1 _ h1 hc.2

theorem advanceTo_armed (s s1 : App) (i : InputId) (t T : Nat) (d : Dom)
    (h : Armed i t d s s1) (hT : t + debounceWait ≤ T) :
    (advanceTo T s1).previewCalls = s.previewCalls ++ [(t + debounceWait, d)] ∧
    (advanceTo T s1).requests =
      (if s.verified = true then s.requests ++ [previewRequest s d] else s.requests) ∧
    (advanceTo T s1).timers = [] := by
  obtain ⟨id, n, tv, htv, rfl⟩ := h
  have hmax : max t (t + debounceWait) = t + debounceWait := by omega
  unfold advanceTo
  simp only [List.length_singleton, runTimers, dueTimer, List.filter, hT, decide_True,
    earliest]
  unfold fire
  simp only [updatePreview_frame, logPreviewCall_frame, clearTimeout_frame, expire_frame, hmax]
  refine ⟨trivial, ?_, ?_⟩
  · unfold updatePreview App.verified
    cases ha : s.apiConfigured <;> cases hc : s.isConnected <;>
      simp [ha, hc, fetchPost, previewRequest, apiUrl, logPreviewCall, expire, clearTimeout, htv]
  · simp [expire, clearTimeout, htv]

theorem run_append (es fs : List Event) (s : App) : run (es ++ fs) s = run fs (run es s) := by
  induction es generalizing s with
  | nil => rfl
  | cons e es ih => exact ih (step e s)

theorem armed_frame (i : InputId) (t : Nat) (d : Dom) (s s1 : App) (h : Armed i t d s s1) :
    s1.previewCalls = s.previewCalls ∧ s1.dom = d ∧ s1.requests = s.requests := by
  obtain ⟨id, n, tv, _, rfl⟩ := h
  exact ⟨rfl, rfl, rfl⟩

/-- C2 as amended: take a burst of `N ≥ 1` edits (`(t0, v0)` followed by `rest`) of one
and the same non-credential input `i`, starting when no debounce timer is pending, each
edit less than 500 ms after the previous one, and let time pass to any `T` at least 500 ms
after the last edit with no further edit. No `updatePreview` call fires during the burst;
exactly one fires for the whole burst, 500 ms after the last edit, with the form values as
they stand after the last edit; it sends one request (built from those values) when the
connection is Verified and none otherwise; and no timer is left pending. -/
theorem debounce_single_input_burst (s : App) (i : InputId) (t0 : Nat) (v0 : Str)
    (rest : List (Nat × Str)) (T : Nat)
    (hi : isCredentialInput i = false) (hidle : s.timers = []) (hnow : s.now ≤ t0)
    (hburst : List.Chain withinWindow (t0, v0) rest)
    (hT : (lastEdit (t0, v0) rest).1 + debounceWait ≤ T) :
    (run (burst i ((t0, v0) :: rest)) s).previewCalls = s.previewCalls ∧
    (run (burst i ((t0, v0) :: rest)) s).dom = s.dom.set i (lastEdit (t0, v0) rest).2 ∧
    (run (burst i ((t0, v0) :: rest) ++ [.tick T]) s).previewCalls =
      s.previewCalls ++
        [((lastEdit (t0, v0) rest).1 + debounceWait, (run (burst i ((t0, v0) :: rest)) s).dom)] ∧
    (run (burst i ((t0, v0) :: rest) ++ [.tick T]) s).requests =
      (if s.verified = true then
        s.requests ++ [previewRequest s (run (burst i ((t0, v0) :: rest)) s).dom]
      else s.requests) ∧
    (run (burst i ((t0, v0) :: rest) ++ [.tick T]) s).requests.length ≤ s.requests.length + 1 ∧
    (run (burst i ((t0, v0) :: rest) ++ [.tick T]) s).timers = [] := by
  have h0 := inputEvent_idle s i t0 v0 hi hidle hnow
  have hb := burst_armed s i hi rest (t0, v0) (inputEvent t0 i v0 s) h0 hburst
  have hrun : run (burst i ((t0, v0) :: rest)) s = run (burst i rest) (inputEvent t0 i v0 s) := rfl
  rw [run_append, hrun]
  obtain ⟨f1, f2, _⟩ := armed_frame _ _ _ _ _ hb
  obtain ⟨a1, a2, a3⟩ := advanceTo_armed _ _ _ _ T _ hb hT
  simp only [run, step]
  rw [f2]
  refine ⟨f1, rfl, a1, a2, ?_, a3⟩
  rw [a2]
  split <;> simp

/-- C2 as amended, on the Verified page: three edits of the `currentH` input at 0, 100 and
400 ms, then time passing to 900 ms. -/
theorem debounce_single_input_burst_witness :
    (run (burst .currentH [(0, "1".toList), (100, "12".toList), (400, "123".toList)] ++
        [.tick 900]) verifiedPage).previewCalls =
      verifiedPage.previewCalls ++
        [(400 + debounceWait,
          (run (burst .currentH [(0, "1".toList), (100, "12".toList), (400, "123".toList)])
            verifiedPage).dom)] ∧
    (run (burst .currentH [(0, "1".toList), (100, "12".toList), (400, "123".toList)] ++
        [.tick 900]) verifiedPage).requests.length ≤ verifiedPage.requests.length + 1 :=
  have h := debounce_single_input_burst verifiedPage .currentH 0 "1".toList
    [(100, "12".toList), (400, "123".toList)] 900 (by decide) (by decide) (by decide)
    (List.Chain.cons (by decide) (List.Chain.cons (by decide) List.Chain.nil)) (by decide)
  ⟨h.2.2.1, h.2.2.2.2.1⟩

/-- C2 as stated fails: on the Verified page a burst of two edits 100 ms apart, one of the
`currentH` input and one of the `beta0` input, with no further edit, fires two
`updatePreview` calls (at 500 ms and at 600 ms) and sends two preview requests, because
each input has its own debounced handler. -/
theorem debounce_two_inputs_two_calls :
    isCredentialInput .currentH = false ∧ isCredentialInput .beta0 = false ∧
    withinWindow (0, "1".toList) (100, "2".toList) ∧
    verifiedPage.timers = [] ∧ verifiedPage.previewCalls = [] ∧
    previewRequests verifiedPage = [] ∧
    (run [.input 0 .currentH "1".toList, .input 100 .beta0 "2".toList, .tick 5000]
      verifiedPage).previewCalls.map Prod.fst = [500, 600] ∧
    (previewRequests
      (run [.input 0 .currentH "1".toList, .input 100 .beta0 "2".toList, .tick 5000]
        verifiedPage)).length = 2 := by
  refine ⟨by decide, by decide, by decide, by decide, by decide, by decide, by decide,
    by decide⟩

/-! ## Credential edits -/

theorem inputEvent_credential (s : App) (t : Nat) (i : InputId) (v : Str)
    (hi : isCredentialInput i = true) :
    inputEvent t i v s = { advanceTo t s with dom := (advanceTo t s).dom.set i v } := by
  simp [inputEvent, hi]

/-- C3 as amended: an edit of a credential field (`apiUrl`, `apiKey`, `apiHost`) changes
the field value and nothing else of the connection state: `apiConfigured` and
`isConnected` are as before, so a Verified state stays Verified. The state leaves
Verified when `saveApiConfig` next runs: right after its synchronous part, before the
probe it starts settles, `isConnected` is false and `apiConfigured` is re-derived from the
new field values (true exactly when all three are non-empty after trimming). -/
theorem credential_edit_then_save (s : App) (t : Nat) (i : InputId) (v : Str)
    (hi : isCredentialInput i = true) :
    (inputEvent t i v s).dom = s.dom.set i v ∧
    (inputEvent t i v s).apiConfigured = s.apiConfigured ∧
    (inputEvent t i v s).isConnected = s.isConnected ∧
    (inputEvent t i v s).verified = s.verified ∧
    (saveApiConfigStart (inputEvent t i v s)).isConnected = false ∧
    (saveApiConfigStart (inputEvent t i v s)).verified = false ∧
    ((saveApiConfigStart (inputEvent t i v s)).apiConfigured = true ↔
      (trim (s.dom.set i v).apiUrl ≠ [] ∧ trim (s.dom.set i v).apiKey ≠ [] ∧
        trim (s.dom.set i v).apiHost ≠ [])) := by
  obtain ⟨g1, g2, g3, _, _⟩ := advanceTo_frame t s
  have hd : (inputEvent t i v s).dom = s.dom.set i v := by
    rw [inputEvent_credential s t i v hi]
    simp [g3]
  refine ⟨hd, ?_, ?_, inputEvent_verified t i v s, saveApiConfigStart_isConnected _, ?_, ?_⟩
  · rw [inputEvent_credential s t i v hi]
    simp [g1]
  · rw [inputEvent_credential s t i v hi]
    simp [g2]
  · unfold App.verified
    rw [saveApiConfigStart_isConnected]
    simp
  · rw [saveApiConfigStart_apiConfigured, configuredFlag_iff, hd]

/-- C3 as amended, on the Verified page: the key field is edited, then saved. -/
theorem credential_edit_then_save_witness :
    (inputEvent 10 .apiKey "other".toList verifiedPage).verified = verifiedPage.verified ∧
    (saveApiConfigStart (inputEvent 10 .apiKey "other".toList verifiedPage)).verified = false :=
  have h := credential_edit_then_save verifiedPage 10 .apiKey "other".toList (by decide)
  ⟨h.2.2.2.1, h.2.2.2.2.2.1⟩

/-- C3 as stated fails: on the page Verified with key `key`, after the key field is
edited to `other` the state is still Verified (`apiConfigured` and `isConnected` both
true), and a sweep started then passes the gate and sends its request with the header
`X-RapidAPI-Key: other`. -/
theorem credential_edit_stays_verified :
    verifiedPage.verified = true ∧
    trim verifiedPage.dom.apiKey = "key".toList ∧
    (step (.input 10 .apiKey "other".toList) verifiedPage).isConnected = true ∧
    (step (.input 10 .apiKey "other".toList) verifiedPage).verified = true ∧
    ((run [.input 10 .apiKey "other".toList, .graphClicked] verifiedPage).requests.getLast?.map
        (fun r => (r.origin, r.headers))) =
      some (Origin.graph, [("Content-Type".toList, "application/json".toList),
        ("X-RapidAPI-Base-Url".toList, "https://api.example.com".toList),
        ("X-RapidAPI-Key".toList, "other".toList),
        ("X-RapidAPI-Host".toList, "host".toList)]) := by
  refine ⟨by decide, by decide, by decide, by decide, by decide⟩

end ACSV
